import Mathlib

/-!
# Transmission line parameter calculator

A shallow embedding of `src/js.js`.  JavaScript numbers are read as elements of
a linearly ordered field `α` (the theorems about logarithms and `π` take
`α = ℝ`), so rounding, overflow, infinities and `NaN` of IEEE doubles are
outside the model.  The host functions `Math.PI`, `Math.log`, `Math.pow` and
`Number.prototype.toFixed` / `toExponential` are parameters of the embedding;
`realMath` instantiates the numeric ones with the real functions.
-/

namespace TransmissionLine

/-- Host numeric primitives used by the script: `Math.PI`, `Math.log`, `Math.pow`. -/
structure JsMath (α : Type) where
  PI : α
  log : α → α
  pow : α → α → α

/-- Host number-to-string primitives: `x.toFixed(d)` and `x.toExponential(d)`. -/
structure JsNumFmt (α : Type) where
  toFixed : α → Nat → String
  toExponential : α → Nat → String

/-- One entry of `materialData`: `{ "rho": ..., "T0": ... }`. -/
structure MaterialSpec (α : Type) where
  rho : α
  T0 : α

/-- The part of the page the script reads.  `num id` is
`parseFloat(document.getElementById(id).value)`, with `none` standing for `NaN`;
`sel id` is the `.value` of a `select`; `material` is the result of
`JSON.parse(materialSelect.value)`, with `none` standing for a thrown exception. -/
structure Dom (α : Type) where
  num : String → Option α
  sel : String → String
  material : Option (MaterialSpec α)

/-- Result of `calculateGMDs`. -/
structure GMDs (α : Type) where
  GMD_L : α
  GMD_C : α

/-- Result of `calculateR`. -/
structure RResult (α : Type) where
  R_per_km : α
  R_total : α

/-- Result of `calculateL`. -/
structure LResult (α : Type) where
  L_per_km : α
  L_total : α

/-- Result of `calculateC`. -/
structure CResult (α : Type) where
  C_per_km : α
  C_total : α

/-- What `updateAllCalculations` writes to the page: the six `textContent`
strings, and for each result group whether `applyParameterFilter` leaves it
visible. -/
structure Display where
  r_per_km : String
  l_per_km : String
  c_per_km : String
  r_total : String
  l_total : String
  c_total : String
  showR : Bool
  showL : Bool
  showC : Bool

section Core

variable {α : Type} [LinearOrderedField α]

/-- Constant `EPSILON_0 = 8.854e-12`. -/
def EPSILON_0 : α := 8.854e-12

/-- Constant `L_FACTOR_PER_M = 2e-7`. -/
def L_FACTOR_PER_M : α := 2e-7

/-- Constant `GMR_FACTOR = 0.7788`. -/
def GMR_FACTOR : α := 0.7788

/-- The table `materialData`, in source order. -/
def materialData : List (String × MaterialSpec α) :=
  [("Copper (Annealed)", ⟨1.7200, 234.5000⟩),
   ("Hard-drawn Aluminum", ⟨2.83, 228.1⟩),
   ("Hard-drawn Copper", ⟨1.77, 241.5⟩)]

/-- Function `getNum(id)`: the parsed value, or `0` when it is `NaN`. -/
def getNum (dom : Dom α) (id : String) : α :=
  match dom.num id with
  | none => 0
  | some val => val

/-- Function `calculateGMDs(arrangement)`. -/
def calculateGMDs (M : JsMath α) (dom : Dom α) (arrangement : String) : GMDs α :=
  let D_eq := getNum dom "spacing"
  let D_ab := getNum dom "spacing_ab"
  let D_bc := getNum dom "spacing_bc"
  let D_ca := getNum dom "spacing_ca"
  let h := getNum dom "height"
  if arrangement = "1P_SYMM" then
    ⟨D_eq, 2 * h⟩
  else if arrangement = "3P_SYMM" then
    ⟨D_eq, D_eq⟩
  else if arrangement = "3P_UNSYMM" then
    if 0 < D_ab ∧ 0 < D_bc ∧ 0 < D_ca then
      let GMD := M.pow (D_ab * D_bc * D_ca) (1 / 3)
      ⟨GMD, GMD⟩
    else
      ⟨0, 0⟩
  else
    ⟨0, 0⟩

/-- Function `calculateR(r, lineLength_km, T_op)`. -/
def calculateR (M : JsMath α) (dom : Dom α) (r lineLength_km T_op : α) : RResult α :=
  let rho := getNum dom "rho"
  let T0 := getNum dom "T0"
  if r ≤ 0 ∨ rho ≤ 0 ∨ T0 ≤ 0 then ⟨0, 0⟩
  else
    let A := M.PI * r * r
    let T_ref : α := 20
    let fT := (T_op + T0) / (T_ref + T0)
    let rho_si := rho * 1e-8
    let R_per_km := (rho_si / A) * fT * 1000
    let R_total := R_per_km * lineLength_km
    ⟨R_per_km, R_total⟩

/-- Function `calculateL(r, lineLength_km, GMD_L)`. -/
def calculateL (M : JsMath α) (r lineLength_km GMD_L : α) : LResult α :=
  let GMR := GMR_FACTOR * r
  if GMR ≤ 0 ∨ GMD_L ≤ 0 ∨ GMD_L ≤ GMR then ⟨0, 0⟩
  else
    let ratio := GMD_L / GMR
    let L_per_m := L_FACTOR_PER_M * M.log ratio
    let L_per_km := L_per_m * 1000
    let L_total := L_per_km * lineLength_km
    ⟨L_per_km, L_total⟩

/-- Function `calculateC(r, lineLength_km, GMD_C)`. -/
def calculateC (M : JsMath α) (r lineLength_km GMD_C : α) : CResult α :=
  if r ≤ 0 ∨ GMD_C ≤ 0 ∨ GMD_C ≤ r then ⟨0, 0⟩
  else
    let numerator := 2 * M.PI * EPSILON_0
    let denominator := M.log (GMD_C / r)
    let C_per_m := numerator / denominator
    let C_per_km := C_per_m * 1000
    let C_total := C_per_km * lineLength_km
    ⟨C_per_km, C_total⟩

/-- Constant `precision = 6`. -/
def precision : Nat := 6

/-- Arrow function `formatOutput(value, unit, isExponential = false)`.  The tests
`value === null` and `isNaN(value)` are false for every value of `α`. -/
def formatOutput (F : JsNumFmt α) (value : α) (unit : String)
    (isExponential : Bool) : String :=
  if value ≤ 1e-12 then "-"
  else if isExponential then F.toExponential value 6 ++ " " ++ unit
  else F.toFixed value precision ++ " " ++ unit

/-- Arrow function `formatInductanceMilli(value, unit)`. -/
def formatInductanceMilli (F : JsNumFmt α) (value : α) (unit : String) : String :=
  if value ≤ 1e-12 then "-"
  else
    let milliValue := value * 1e3
    F.toFixed milliValue precision ++ " " ++ unit

/-- Arrow function `formatCapacitanceMicro(value, unit)`. -/
def formatCapacitanceMicro (F : JsNumFmt α) (value : α) (unit : String) : String :=
  if value ≤ 1e-15 then "-"
  else
    let microValue := value * 1e6
    F.toFixed microValue precision ++ " " ++ unit

/-- Function `applyParameterFilter(selectedParam)`: which of the R, L, C result
groups stay visible (`hidden` is toggled with `!show`). -/
def applyParameterFilter (selectedParam : String) : Bool × Bool × Bool :=
  let isAll := selectedParam == "ALL"
  (isAll || selectedParam == "R", isAll || selectedParam == "L",
    isAll || selectedParam == "C")

/-- Function `updateAllCalculations()`. -/
def updateAllCalculations (M : JsMath α) (F : JsNumFmt α) (dom : Dom α) : Display :=
  let arrangement := dom.sel "phaseArrangement"
  let r := getNum dom "conductorRadius"
  let T_op := getNum dom "operatingTemp"
  let lineLength_km := getNum dom "lineLength"
  let selectedParam := dom.sel "computeParameter"
  let g := calculateGMDs M dom arrangement
  let R := calculateR M dom r lineLength_km T_op
  let L := calculateL M r lineLength_km g.GMD_L
  let C := calculateC M r lineLength_km g.GMD_C
  let vis := applyParameterFilter selectedParam
  { r_per_km := formatOutput F R.R_per_km "Ω/km" false
    l_per_km := formatInductanceMilli F L.L_per_km "mH/km"
    c_per_km := formatCapacitanceMicro F C.C_per_km "µF/km"
    r_total := formatOutput F R.R_total "Ω" false
    l_total := formatInductanceMilli F L.L_total "mH"
    c_total := formatCapacitanceMicro F C.C_total "µF"
    showR := vis.1
    showL := vis.2.1
    showC := vis.2.2 }

end Core

section Material

variable {α : Type} [LinearOrderedField α] [FloorRing α]

/-- The number `parseFloat` reads back from the string `x.toFixed(d)`: the
sign is split off, a magnitude of at least `10^21` is printed in full, and
otherwise the magnitude becomes `n / 10^d` for the integer `n` closest to
`x * 10^d`, the larger one on a tie. -/
def toFixedValue (x : α) (d : Nat) : α :=
  if 10 ^ 21 ≤ |x| then x
  else if x < 0 then -(((⌊-x * 10 ^ d + 1 / 2⌋ : ℤ) : α) / 10 ^ d)
  else ((⌊x * 10 ^ d + 1 / 2⌋ : ℤ) : α) / 10 ^ d

/-- Assignment `document.getElementById(id).value = x.toFixed(4)`, as seen by a
later `getNum(id)`. -/
def Dom.setFixed4 (dom : Dom α) (id : String) (x : α) : Dom α :=
  { dom with num := fun j => if j = id then some (toFixedValue x 4) else dom.num j }

/-- Function `handleMaterialChange()`: the page after the two assignments (left
as it was when `JSON.parse` throws), and what `updateAllCalculations` then
displays. -/
def handleMaterialChange (M : JsMath α) (F : JsNumFmt α) (dom : Dom α) :
    Dom α × Display :=
  let dom1 :=
    match dom.material with
    | some materialData =>
        (dom.setFixed4 "rho" materialData.rho).setFixed4 "T0" materialData.T0
    | none => dom
  (dom1, updateAllCalculations M F dom1)

end Material

/-- The real-number reading of the host primitives: `Math.PI` is `π`, `Math.log`
the natural logarithm and `Math.pow` the real power.  The script calls
`Math.log` only on a quotient above `1` and `Math.pow` only on a positive base,
where these agree with the JavaScript functions up to rounding. -/
noncomputable def realMath : JsMath ℝ where
  PI := Real.pi
  log := Real.log
  pow := fun x y => x ^ y

/-- The GMD selector as the specification words it (§4.1): one case per
arrangement value, the unsymmetric one taking the cube root of the product of
the three spacings when all are strictly positive, and `(0, 0)` otherwise. -/
noncomputable def gmdSelectorSpec (arrangement : String)
    (D_eq D_ab D_bc D_ca h : ℝ) : GMDs ℝ :=
  match arrangement with
  | "1P_SYMM" => { GMD_L := D_eq, GMD_C := 2 * h }
  | "3P_SYMM" => { GMD_L := D_eq, GMD_C := D_eq }
  | "3P_UNSYMM" =>
      if 0 < D_ab ∧ 0 < D_bc ∧ 0 < D_ca then
        { GMD_L := (D_ab * D_bc * D_ca) ^ ((1 : ℝ) / 3),
          GMD_C := (D_ab * D_bc * D_ca) ^ ((1 : ℝ) / 3) }
      else { GMD_L := 0, GMD_C := 0 }
  | _ => { GMD_L := 0, GMD_C := 0 }

/-- The resistance model as the specification words it (§4.2): the per-km value
is `0` under the guard and `(rho*1e-8 / (π r²)) * ((T_op + T0)/(20 + T0)) * 1000`
otherwise; the total is the per-km value times the length. -/
noncomputable def resistanceSpec (r length_km T_op rho T0 : ℝ) : RResult ℝ :=
  let perKm : ℝ :=
    if r ≤ 0 ∨ rho ≤ 0 ∨ T0 ≤ 0 then 0
    else (rho * 1e-8 / (Real.pi * r ^ 2)) * ((T_op + T0) / (20 + T0)) * 1000
  { R_per_km := perKm, R_total := perKm * length_km }

/-- A page whose numeric fields hold the given values and whose arrangement
select holds `arrangement`; every other field is empty. -/
def pageOf {α : Type} (arrangement : String)
    (fields : List (String × α)) : Dom α where
  num := fun id => (fields.find? (fun p => p.1 == id)).map Prod.snd
  sel := fun id => if id = "phaseArrangement" then arrangement else "ALL"
  material := none

/-- The page of the end-to-end scenario of §8: radius `1.5`, three-phase
symmetric spacing `4`, operating temperature `20`, the annealed-copper values
`rho = 1.72`, `T0 = 234.5`, and length `100`. -/
def scenarioPage {α : Type} [LinearOrderedField α] : Dom α :=
  pageOf "3P_SYMM"
    [("conductorRadius", 1.5), ("spacing", 4), ("operatingTemp", 20),
     ("rho", 1.72), ("T0", 234.5), ("lineLength", 100)]

/-- An unsymmetric page with spacings `3`, `0` and `5`. -/
def unsymmPage {α : Type} [LinearOrderedField α] : Dom α :=
  pageOf "3P_UNSYMM" [("spacing_ab", 3), ("spacing_bc", 0), ("spacing_ca", 5)]

/-- A page with radius `-1` and otherwise the values of `scenarioPage`. -/
def negativeRadiusPage {α : Type} [LinearOrderedField α] : Dom α :=
  pageOf "3P_SYMM"
    [("conductorRadius", -1), ("spacing", 4), ("operatingTemp", 20),
     ("rho", 1.72), ("T0", 234.5), ("lineLength", 100)]

/-- A number formatter that prints nothing, for evaluating the display on a
concrete page. -/
def blankFmt {α : Type} : JsNumFmt α where
  toFixed := fun _ _ => ""
  toExponential := fun _ _ => ""

/-! ## Theorems -/

section Generic

variable {α : Type} [LinearOrderedField α]

/-- C4: whenever `GMD_C <= r`, whatever the signs of `r` and `GMD_C` and whatever
the line length, `calculateC` returns exactly `{C_per_km: 0, C_total: 0}`. -/
theorem calculateC_zero_of_gmd_le_radius (M : JsMath α) (r lineLength_km GMD_C : α)
    (h : GMD_C ≤ r) :
    calculateC M r lineLength_km GMD_C = { C_per_km := 0, C_total := 0 } := by
  unfold calculateC
  rw [if_pos (Or.inr (Or.inr h))]

/-- C4, instance: radius `2`, `GMD_C = 1`, length `10` over the reals. -/
theorem calculateC_zero_of_gmd_le_radius_witness :
    (1 : ℝ) ≤ 2 ∧ calculateC realMath (2 : ℝ) 10 1 = { C_per_km := 0, C_total := 0 } :=
  ⟨by norm_num, calculateC_zero_of_gmd_le_radius realMath 2 10 1 (by norm_num)⟩

/-- With a positive radius and `GMD_L` above the GMR, the guard of `calculateL`
is passed and the logarithmic formula is returned. -/
theorem calculateL_of_gmr_lt (M : JsMath α) (r lineLength_km GMD_L : α)
    (hr : 0 < r) (hg : GMR_FACTOR * r < GMD_L) :
    calculateL M r lineLength_km GMD_L =
      { L_per_km := L_FACTOR_PER_M * M.log (GMD_L / (GMR_FACTOR * r)) * 1000,
        L_total := L_FACTOR_PER_M * M.log (GMD_L / (GMR_FACTOR * r)) * 1000 *
          lineLength_km } := by
  have hf : (0 : α) < GMR_FACTOR := by unfold GMR_FACTOR; norm_num
  have hgmr : 0 < GMR_FACTOR * r := mul_pos hf hr
  have hguard : ¬(GMR_FACTOR * r ≤ 0 ∨ GMD_L ≤ 0 ∨ GMD_L ≤ GMR_FACTOR * r) := by
    rintro (h | h | h)
    · exact absurd hgmr (not_lt.mpr h)
    · exact absurd (hgmr.trans hg) (not_lt.mpr h)
    · exact absurd hg (not_lt.mpr h)
  unfold calculateL
  simp only [if_neg hguard]

/-- With a non-positive radius the guard of `calculateL` trips. -/
theorem calculateL_zero_of_radius_nonpos (M : JsMath α) (r lineLength_km GMD_L : α)
    (hr : r ≤ 0) :
    calculateL M r lineLength_km GMD_L = { L_per_km := 0, L_total := 0 } := by
  have hf : (0 : α) ≤ GMR_FACTOR := by unfold GMR_FACTOR; norm_num
  unfold calculateL
  simp only [if_pos (Or.inl (mul_nonpos_of_nonneg_of_nonpos hf hr) :
    GMR_FACTOR * r ≤ 0 ∨ GMD_L ≤ 0 ∨ GMD_L ≤ GMR_FACTOR * r)]

/-- With a non-positive `GMD_L` the guard of `calculateL` trips. -/
theorem calculateL_zero_of_gmd_nonpos (M : JsMath α) (r lineLength_km GMD_L : α)
    (hg : GMD_L ≤ 0) :
    calculateL M r lineLength_km GMD_L = { L_per_km := 0, L_total := 0 } := by
  unfold calculateL
  simp only [if_pos (Or.inr (Or.inl hg) :
    GMR_FACTOR * r ≤ 0 ∨ GMD_L ≤ 0 ∨ GMD_L ≤ GMR_FACTOR * r)]

/-- With a non-positive radius or a non-positive `GMD_C` the guard of
`calculateC` trips. -/
theorem calculateC_zero_of_nonpos (M : JsMath α) (r lineLength_km GMD_C : α)
    (h : r ≤ 0 ∨ GMD_C ≤ 0) :
    calculateC M r lineLength_km GMD_C = { C_per_km := 0, C_total := 0 } := by
  have hguard : r ≤ 0 ∨ GMD_C ≤ 0 ∨ GMD_C ≤ r := by
    rcases h with h | h
    · exact Or.inl h
    · exact Or.inr (Or.inl h)
  unfold calculateC
  rw [if_pos hguard]

/-- With a non-positive radius the guard of `calculateR` trips. -/
theorem calculateR_zero_of_radius_nonpos (M : JsMath α) (dom : Dom α)
    (r lineLength_km T_op : α) (hr : r ≤ 0) :
    calculateR M dom r lineLength_km T_op = { R_per_km := 0, R_total := 0 } := by
  unfold calculateR
  simp only [if_pos (Or.inl hr : r ≤ 0 ∨ getNum dom "rho" ≤ 0 ∨ getNum dom "T0" ≤ 0)]

/-- The three formatters render the value `0` as a dash. -/
theorem format_zero (F : JsNumFmt α) (unit : String) :
    formatOutput F 0 unit false = "-" ∧ formatInductanceMilli F 0 unit = "-" ∧
      formatCapacitanceMicro F 0 unit = "-" := by
  have h12 : (0 : α) ≤ 1e-12 := by norm_num
  have h15 : (0 : α) ≤ 1e-15 := by norm_num
  unfold formatOutput formatInductanceMilli formatCapacitanceMicro
  simp only [if_pos h12, if_pos h15, and_self]

/-- C5: in the `3P_UNSYMM` arrangement, when one of the three spacings is
non-positive, `calculateGMDs` returns `GMD_L = GMD_C = 0`, and `calculateL` and
`calculateC` fed with these return the zero pair for every radius and length. -/
theorem unsymm_nonpos_spacing_zero (M : JsMath α) (dom : Dom α) (r lineLength_km : α)
    (h : getNum dom "spacing_ab" ≤ 0 ∨ getNum dom "spacing_bc" ≤ 0 ∨
      getNum dom "spacing_ca" ≤ 0) :
    calculateGMDs M dom "3P_UNSYMM" = { GMD_L := 0, GMD_C := 0 } ∧
      calculateL M r lineLength_km (calculateGMDs M dom "3P_UNSYMM").GMD_L =
        { L_per_km := 0, L_total := 0 } ∧
      calculateC M r lineLength_km (calculateGMDs M dom "3P_UNSYMM").GMD_C =
        { C_per_km := 0, C_total := 0 } := by
  have hguard : ¬(0 < getNum dom "spacing_ab" ∧ 0 < getNum dom "spacing_bc" ∧
      0 < getNum dom "spacing_ca") := by
    rintro ⟨ha, hb, hc⟩
    rcases h with h | h | h
    · exact absurd ha (not_lt.mpr h)
    · exact absurd hb (not_lt.mpr h)
    · exact absurd hc (not_lt.mpr h)
  have hG : calculateGMDs M dom "3P_UNSYMM" = { GMD_L := 0, GMD_C := 0 } := by
    unfold calculateGMDs
    simp only [if_neg hguard]
    rfl
  rw [hG]
  exact ⟨rfl, calculateL_zero_of_gmd_nonpos M r lineLength_km 0 le_rfl,
    calculateC_zero_of_nonpos M r lineLength_km 0 (Or.inr le_rfl)⟩

/-- C8: with a radius `r <= 0`, `calculateR`, `calculateL` and `calculateC` return
the zero pair for every other argument, and when `r` is the value of the
`conductorRadius` field each of the six strings written by
`updateAllCalculations` is the dash. -/
theorem radius_nonpos_blanks (M : JsMath α) (F : JsNumFmt α) (dom : Dom α)
    (r lineLength_km T_op GMD_L GMD_C : α) (hr : r ≤ 0) :
    calculateR M dom r lineLength_km T_op = { R_per_km := 0, R_total := 0 } ∧
      calculateL M r lineLength_km GMD_L = { L_per_km := 0, L_total := 0 } ∧
      calculateC M r lineLength_km GMD_C = { C_per_km := 0, C_total := 0 } ∧
      (getNum dom "conductorRadius" = r →
        (updateAllCalculations M F dom).r_per_km = "-" ∧
        (updateAllCalculations M F dom).l_per_km = "-" ∧
        (updateAllCalculations M F dom).c_per_km = "-" ∧
        (updateAllCalculations M F dom).r_total = "-" ∧
        (updateAllCalculations M F dom).l_total = "-" ∧
        (updateAllCalculations M F dom).c_total = "-") := by
  refine ⟨calculateR_zero_of_radius_nonpos M dom r lineLength_km T_op hr,
    calculateL_zero_of_radius_nonpos M r lineLength_km GMD_L hr,
    calculateC_zero_of_nonpos M r lineLength_km GMD_C (Or.inl hr), ?_⟩
  intro hdom
  subst hdom
  unfold updateAllCalculations
  simp only [calculateR_zero_of_radius_nonpos M dom _ _ _ hr,
    calculateL_zero_of_radius_nonpos M _ _ _ hr,
    calculateC_zero_of_nonpos M _ _ _ (Or.inl hr),
    (format_zero F _).1, (format_zero F _).2.1, (format_zero F _).2.2, and_self]

end Generic

/-- C1: `calculateGMDs` agrees with the reference selector for every arrangement
string and every value of the spacing and height fields. -/
theorem calculateGMDs_eq_gmdSelectorSpec (dom : Dom ℝ) (arrangement : String) :
    calculateGMDs realMath dom arrangement =
      gmdSelectorSpec arrangement (getNum dom "spacing") (getNum dom "spacing_ab")
        (getNum dom "spacing_bc") (getNum dom "spacing_ca") (getNum dom "height") := by
  unfold calculateGMDs gmdSelectorSpec
  by_cases h1 : arrangement = "1P_SYMM"
  · subst h1; simp
  by_cases h2 : arrangement = "3P_SYMM"
  · subst h2; simp
  by_cases h3 : arrangement = "3P_UNSYMM"
  · subst h3; simp [realMath]
  · simp only [if_neg h1, if_neg h2, if_neg h3]

/-- C2: `calculateR` agrees with the reference resistance model for every radius,
length, operating temperature and every value of the `rho` and `T0` fields, and
its `R_total` is always `R_per_km * length_km`. -/
theorem calculateR_eq_resistanceSpec (dom : Dom ℝ) (r lineLength_km T_op : ℝ) :
    calculateR realMath dom r lineLength_km T_op =
        resistanceSpec r lineLength_km T_op (getNum dom "rho") (getNum dom "T0") ∧
      (calculateR realMath dom r lineLength_km T_op).R_total =
        (calculateR realMath dom r lineLength_km T_op).R_per_km * lineLength_km := by
  unfold calculateR resistanceSpec
  by_cases hg : r ≤ 0 ∨ getNum dom "rho" ≤ 0 ∨ getNum dom "T0" ≤ 0
  · simp [if_pos hg]
  · simp only [if_neg hg, realMath, and_true]
    have hA : Real.pi * r * r = Real.pi * r ^ 2 := by ring
    rw [hA]

/-- C5, instance: the unsymmetric page with spacings `3`, `0`, `5`, radius `1`
and length `10`, over the reals. -/
theorem unsymm_nonpos_spacing_zero_witness :
    calculateGMDs realMath unsymmPage "3P_UNSYMM" = { GMD_L := 0, GMD_C := 0 } ∧
      calculateL realMath 1 10 (calculateGMDs realMath unsymmPage "3P_UNSYMM").GMD_L =
        { L_per_km := 0, L_total := 0 } ∧
      calculateC realMath 1 10 (calculateGMDs realMath unsymmPage "3P_UNSYMM").GMD_C =
        { C_per_km := 0, C_total := 0 } :=
  unsymm_nonpos_spacing_zero realMath unsymmPage 1 10
    (Or.inr (Or.inl (by simp [getNum, unsymmPage, pageOf])))

/-- C8, instance: the page with radius `-1`. -/
theorem radius_nonpos_blanks_witness :
    calculateR realMath negativeRadiusPage (-1) 100 20 = { R_per_km := 0, R_total := 0 } ∧
      calculateL realMath (-1) 100 4 = { L_per_km := 0, L_total := 0 } ∧
      calculateC realMath (-1) 100 4 = { C_per_km := 0, C_total := 0 } ∧
      (updateAllCalculations realMath blankFmt negativeRadiusPage).r_per_km = "-" ∧
      (updateAllCalculations realMath blankFmt negativeRadiusPage).l_per_km = "-" ∧
      (updateAllCalculations realMath blankFmt negativeRadiusPage).c_per_km = "-" ∧
      (updateAllCalculations realMath blankFmt negativeRadiusPage).r_total = "-" ∧
      (updateAllCalculations realMath blankFmt negativeRadiusPage).l_total = "-" ∧
      (updateAllCalculations realMath blankFmt negativeRadiusPage).c_total = "-" :=
  have h := radius_nonpos_blanks realMath blankFmt negativeRadiusPage (-1) 100 20 4 4
    (by norm_num)
  ⟨h.1, h.2.1, h.2.2.1, h.2.2.2 (by simp [getNum, negativeRadiusPage, pageOf])⟩

/-- C9: for `r > 0` and `GMD_C > r` the guard of `calculateC` is not taken, the
denominator `ln(GMD_C / r)` is strictly positive, and the returned `C_per_km` is
`2π·8.854e-12 / ln(GMD_C / r) * 1000`, which is strictly positive. -/
theorem calculateC_guard_safe (r lineLength_km GMD_C : ℝ) (hr : 0 < r)
    (hg : r < GMD_C) :
    ¬(r ≤ 0 ∨ GMD_C ≤ 0 ∨ GMD_C ≤ r) ∧ 0 < Real.log (GMD_C / r) ∧
      calculateC realMath r lineLength_km GMD_C =
        { C_per_km := 2 * Real.pi * 8.854e-12 / Real.log (GMD_C / r) * 1000,
          C_total := 2 * Real.pi * 8.854e-12 / Real.log (GMD_C / r) * 1000 *
            lineLength_km } ∧
      0 < (calculateC realMath r lineLength_km GMD_C).C_per_km := by
  have hguard : ¬(r ≤ 0 ∨ GMD_C ≤ 0 ∨ GMD_C ≤ r) := by
    rintro (h | h | h)
    · exact absurd hr (not_lt.mpr h)
    · exact absurd (hr.trans hg) (not_lt.mpr h)
    · exact absurd hg (not_lt.mpr h)
  have hlog : 0 < Real.log (GMD_C / r) := Real.log_pos ((one_lt_div hr).mpr hg)
  have hC : calculateC realMath r lineLength_km GMD_C =
      { C_per_km := 2 * Real.pi * 8.854e-12 / Real.log (GMD_C / r) * 1000,
        C_total := 2 * Real.pi * 8.854e-12 / Real.log (GMD_C / r) * 1000 *
          lineLength_km } := by
    unfold calculateC
    simp only [if_neg hguard]
    rfl
  refine ⟨hguard, hlog, hC, ?_⟩
  rw [hC]
  show 0 < 2 * Real.pi * 8.854e-12 / Real.log (GMD_C / r) * 1000
  have hpi := Real.pi_pos
  positivity

/-- C9, instance: radius `1.5` and `GMD_C = 4`. -/
theorem calculateC_guard_safe_witness :
    0 < Real.log ((4 : ℝ) / 1.5) ∧ 0 < (calculateC realMath 1.5 100 4).C_per_km :=
  have h := calculateC_guard_safe 1.5 100 4 (by norm_num) (by norm_num)
  ⟨h.2.1, h.2.2.2⟩

/-- When the guard of `calculateR` is passed, the formula is returned. -/
theorem calculateR_of_pos (dom : Dom ℝ) (r lineLength_km T_op : ℝ) (hr : 0 < r)
    (hrho : 0 < getNum dom "rho") (hT0 : 0 < getNum dom "T0") :
    calculateR realMath dom r lineLength_km T_op =
      { R_per_km := getNum dom "rho" * 1e-8 / (Real.pi * r * r) *
          ((T_op + getNum dom "T0") / (20 + getNum dom "T0")) * 1000,
        R_total := getNum dom "rho" * 1e-8 / (Real.pi * r * r) *
          ((T_op + getNum dom "T0") / (20 + getNum dom "T0")) * 1000 * lineLength_km } := by
  have hguard : ¬(r ≤ 0 ∨ getNum dom "rho" ≤ 0 ∨ getNum dom "T0" ≤ 0) := by
    rintro (h | h | h)
    · exact absurd hr (not_lt.mpr h)
    · exact absurd hrho (not_lt.mpr h)
    · exact absurd hT0 (not_lt.mpr h)
  unfold calculateR
  simp only [if_neg hguard]
  rfl

/-- At `T_op = 20` the temperature factor of `calculateR` is `1`. -/
theorem calculateR_at_twenty (dom : Dom ℝ) (r lineLength_km : ℝ) (hr : 0 < r)
    (hrho : 0 < getNum dom "rho") (hT0 : 0 < getNum dom "T0") :
    calculateR realMath dom r lineLength_km 20 =
      { R_per_km := getNum dom "rho" * 1e-8 / (Real.pi * r ^ 2) * 1000,
        R_total := getNum dom "rho" * 1e-8 / (Real.pi * r ^ 2) * 1000 * lineLength_km } := by
  have hne : (20 : ℝ) + getNum dom "T0" ≠ 0 := by positivity
  have hsq : Real.pi * r * r = Real.pi * r ^ 2 := by ring
  rw [calculateR_of_pos dom r lineLength_km 20 hr hrho hT0, div_self hne, hsq, mul_one]

/-- The catalog values `1.72` and `234.5` survive `toFixed(4)` unchanged. -/
theorem toFixedValue_copper :
    toFixedValue (1.72 : ℝ) 4 = 1.72 ∧ toFixedValue (234.5 : ℝ) 4 = 234.5 := by
  have a1 : ¬((10 : ℝ) ^ 21 ≤ |1.72|) := by rw [abs_of_pos (by norm_num)]; norm_num
  have a2 : ¬((1.72 : ℝ) < 0) := by norm_num
  have a3 : ⌊(1.72 : ℝ) * 10 ^ 4 + 1 / 2⌋ = 17200 := by
    rw [Int.floor_eq_iff]; norm_num
  have b1 : ¬((10 : ℝ) ^ 21 ≤ |234.5|) := by rw [abs_of_pos (by norm_num)]; norm_num
  have b2 : ¬((234.5 : ℝ) < 0) := by norm_num
  have b3 : ⌊(234.5 : ℝ) * 10 ^ 4 + 1 / 2⌋ = 2345000 := by
    rw [Int.floor_eq_iff]; norm_num
  unfold toFixedValue
  simp only [if_neg a1, if_neg a2, a3, if_neg b1, if_neg b2, b3]
  norm_num

/-- After `handleMaterialChange` on a page whose material select holds the
annealed-copper entry, the `rho` and `T0` fields read `1.72` and `234.5`. -/
theorem handleMaterialChange_copper (F : JsNumFmt ℝ) (dom : Dom ℝ)
    (hmat : dom.material = List.lookup "Copper (Annealed)" materialData) :
    getNum (handleMaterialChange realMath F dom).1 "rho" = 1.72 ∧
      getNum (handleMaterialChange realMath F dom).1 "T0" = 234.5 := by
  have hm : dom.material = some { rho := 1.72, T0 := 234.5 } := by
    rw [hmat]; simp [materialData, List.lookup]; norm_num
  unfold handleMaterialChange
  simp [hm, Dom.setFixed4, getNum, toFixedValue_copper.1, toFixedValue_copper.2]

/-- C10: at `T_op = 20`, with `r`, `rho`, `T0` positive, `calculateR` returns
`R_per_km = rho*1e-8 / (π r²) * 1000`, the same on any page with the same `rho`
and a positive `T0`; after `handleMaterialChange` with the annealed-copper entry
selected, `r = 1` and length `1` give `R_per_km = R_total = 1.72e-8 / π * 1000`. -/
theorem calculateR_reference_temperature (F : JsNumFmt ℝ) (dom dom2 domSel : Dom ℝ)
    (r lineLength_km : ℝ) (hr : 0 < r) (hrho : 0 < getNum dom "rho")
    (hT0 : 0 < getNum dom "T0") (hrho2 : getNum dom2 "rho" = getNum dom "rho")
    (hT02 : 0 < getNum dom2 "T0")
    (hmat : domSel.material = List.lookup "Copper (Annealed)" materialData) :
    (calculateR realMath dom r lineLength_km 20).R_per_km =
        getNum dom "rho" * 1e-8 / (Real.pi * r ^ 2) * 1000 ∧
      (calculateR realMath dom2 r lineLength_km 20).R_per_km =
        (calculateR realMath dom r lineLength_km 20).R_per_km ∧
      calculateR realMath (handleMaterialChange realMath F domSel).1 1 1 20 =
        { R_per_km := 1.72e-8 / Real.pi * 1000, R_total := 1.72e-8 / Real.pi * 1000 } := by
  obtain ⟨h1, h2⟩ := handleMaterialChange_copper F domSel hmat
  refine ⟨?_, ?_, ?_⟩
  · rw [calculateR_at_twenty dom r lineLength_km hr hrho hT0]
  · rw [calculateR_at_twenty dom r lineLength_km hr hrho hT0,
      calculateR_at_twenty dom2 r lineLength_km hr (hrho2 ▸ hrho) hT02, hrho2]
  · rw [calculateR_at_twenty _ 1 1 one_pos (by rw [h1]; norm_num) (by rw [h2]; norm_num), h1]
    norm_num

/-- C10, instance: the scenario page, a second page with `T0 = 1`, and the
scenario page with the annealed-copper entry selected. -/
theorem calculateR_reference_temperature_witness :
    (calculateR realMath scenarioPage 1 1 20).R_per_km =
        getNum (scenarioPage : Dom ℝ) "rho" * 1e-8 / (Real.pi * 1 ^ 2) * 1000 ∧
      (calculateR realMath (pageOf "3P_SYMM" [("rho", 1.72), ("T0", 1)]) 1 1 20).R_per_km =
        (calculateR realMath scenarioPage 1 1 20).R_per_km ∧
      calculateR realMath (handleMaterialChange realMath blankFmt
          { (scenarioPage : Dom ℝ) with
            material := List.lookup "Copper (Annealed)" materialData }).1 1 1 20 =
        { R_per_km := 1.72e-8 / Real.pi * 1000, R_total := 1.72e-8 / Real.pi * 1000 } :=
  calculateR_reference_temperature blankFmt scenarioPage
    (pageOf "3P_SYMM" [("rho", 1.72), ("T0", 1)])
    { (scenarioPage : Dom ℝ) with material := List.lookup "Copper (Annealed)" materialData }
    1 1 one_pos (by simp [getNum, scenarioPage, pageOf]; norm_num)
    (by simp [getNum, scenarioPage, pageOf]; norm_num)
    (by simp [getNum, scenarioPage, pageOf])
    (by simp [getNum, pageOf]) rfl

/-- The `rho` and `T0` fields of the scenario page. -/
theorem scenarioPage_material :
    getNum (scenarioPage : Dom ℝ) "rho" = 1.72 ∧
      getNum (scenarioPage : Dom ℝ) "T0" = 234.5 := by
  constructor <;> simp [getNum, scenarioPage, pageOf]

/-- C7, refutation: on the scenario page with `r = 1`, an operating temperature
of `-300` (below `-T0 = -234.5`) gives a result that is neither the zero pair
nor has a positive `R_per_km`: its `R_per_km` is negative; and at `T_op = 20` a
length of `-1` gives a negative `R_total`. -/
theorem calculateR_negative_counterexample :
    ¬(calculateR realMath scenarioPage 1 1 (-300) = { R_per_km := 0, R_total := 0 } ∨
        0 < (calculateR realMath scenarioPage 1 1 (-300)).R_per_km) ∧
      (calculateR realMath scenarioPage 1 1 (-300)).R_per_km < 0 ∧
      (calculateR realMath scenarioPage 1 (-1) 20).R_total < 0 := by
  obtain ⟨hrho, hT0⟩ := scenarioPage_material
  have hpi := Real.pi_pos
  have e := calculateR_of_pos scenarioPage 1 1 (-300) one_pos
    (by rw [hrho]; norm_num) (by rw [hT0]; norm_num)
  have e20 := calculateR_at_twenty scenarioPage 1 (-1) one_pos
    (by rw [hrho]; norm_num) (by rw [hT0]; norm_num)
  rw [hrho, hT0] at e
  rw [hrho] at e20
  have hk : (0 : ℝ) < 1.72 * 1e-8 / (Real.pi * 1 * 1) := by positivity
  have hf : ((-300 + 234.5) / (20 + 234.5) : ℝ) < 0 := by norm_num
  have hneg : (calculateR realMath scenarioPage 1 1 (-300)).R_per_km < 0 := by
    rw [e]
    show (1.72 : ℝ) * 1e-8 / (Real.pi * 1 * 1) * ((-300 + 234.5) / (20 + 234.5)) * 1000 < 0
    have := mul_neg_of_pos_of_neg hk hf
    linarith
  refine ⟨?_, hneg, ?_⟩
  · rintro (h | h)
    · rw [h] at hneg
      exact lt_irrefl _ hneg
    · exact lt_asymm h hneg
  · rw [e20]
    show (1.72 : ℝ) * 1e-8 / (Real.pi * 1 ^ 2) * 1000 * -1 < 0
    have hk2 : (0 : ℝ) < 1.72 * 1e-8 / (Real.pi * 1 ^ 2) * 1000 := by positivity
    linarith

/-- C7, amended: when the guard trips or `T_op >= -T0`, `calculateR` returns either
the zero pair or a pair with strictly positive `R_per_km`, its `R_per_km` is not
negative, and with a non-negative length its `R_total` is not negative. -/
theorem calculateR_zero_or_pos (dom : Dom ℝ) (r lineLength_km T_op : ℝ)
    (h : r ≤ 0 ∨ getNum dom "rho" ≤ 0 ∨ getNum dom "T0" ≤ 0 ∨
      -(getNum dom "T0") ≤ T_op) :
    (calculateR realMath dom r lineLength_km T_op = { R_per_km := 0, R_total := 0 } ∨
        0 < (calculateR realMath dom r lineLength_km T_op).R_per_km) ∧
      0 ≤ (calculateR realMath dom r lineLength_km T_op).R_per_km ∧
      (0 ≤ lineLength_km → 0 ≤ (calculateR realMath dom r lineLength_km T_op).R_total) := by
  by_cases hguard : r ≤ 0 ∨ getNum dom "rho" ≤ 0 ∨ getNum dom "T0" ≤ 0
  · have hz : calculateR realMath dom r lineLength_km T_op =
        { R_per_km := 0, R_total := 0 } := by
      unfold calculateR
      simp only [if_pos hguard]
    rw [hz]
    exact ⟨Or.inl rfl, le_rfl, fun _ => le_rfl⟩
  · have hr : 0 < r := not_le.mp (fun hh => hguard (Or.inl hh))
    have hrho : 0 < getNum dom "rho" := not_le.mp (fun hh => hguard (Or.inr (Or.inl hh)))
    have hT0 : 0 < getNum dom "T0" := not_le.mp (fun hh => hguard (Or.inr (Or.inr hh)))
    have hT : 0 ≤ T_op + getNum dom "T0" := by
      rcases h with h | h | h | h
      · exact absurd hr (not_lt.mpr h)
      · exact absurd hrho (not_lt.mpr h)
      · exact absurd hT0 (not_lt.mpr h)
      · linarith
    have hpi := Real.pi_pos
    have hk : 0 < getNum dom "rho" * 1e-8 / (Real.pi * r * r) := by positivity
    have hd : 0 < 20 + getNum dom "T0" := by positivity
    rw [calculateR_of_pos dom r lineLength_km T_op hr hrho hT0]
    rcases hT.eq_or_lt with h0 | hpos
    · rw [← h0]
      refine ⟨Or.inl ?_, ?_, fun _ => ?_⟩ <;> simp
    · have hfT : 0 < (T_op + getNum dom "T0") / (20 + getNum dom "T0") := div_pos hpos hd
      have hR : 0 < getNum dom "rho" * 1e-8 / (Real.pi * r * r) *
          ((T_op + getNum dom "T0") / (20 + getNum dom "T0")) * 1000 := by positivity
      exact ⟨Or.inr hR, hR.le, fun hl => mul_nonneg hR.le hl⟩

/-- C7, instance: the scenario page at `T_op = 20`, `r = 1`, length `100`. -/
theorem calculateR_zero_or_pos_witness :
    (calculateR realMath scenarioPage 1 100 20 = { R_per_km := 0, R_total := 0 } ∨
        0 < (calculateR realMath scenarioPage 1 100 20).R_per_km) ∧
      0 ≤ (calculateR realMath scenarioPage 1 100 20).R_per_km ∧
      0 ≤ (calculateR realMath scenarioPage 1 100 20).R_total :=
  have h := calculateR_zero_or_pos scenarioPage 1 100 20
    (Or.inr (Or.inr (Or.inr (by rw [scenarioPage_material.2]; norm_num))))
  ⟨h.1, h.2.1, h.2.2 (by norm_num)⟩

/-- Six-decimal enclosure of `ln(4 / 1.1682)`, from the series of `ln(1 - x)` at
`x = 841/5841` and the enclosure of `ln 2`. -/
theorem log_scenario_quotient_bounds :
    (1.230830 : ℝ) < Real.log (4 / 1.1682) ∧ Real.log (4 / 1.1682) < 1.230831 := by
  have hx : (4 / 1.1682 : ℝ) = 2 * 2 * (1 - 841 / 5841) := by norm_num
  have hlog : Real.log (4 / 1.1682) =
      Real.log 2 + Real.log 2 + Real.log (1 - 841 / 5841) := by
    rw [hx, Real.log_mul (by norm_num) (by norm_num),
      Real.log_mul (by norm_num) (by norm_num)]
  have habs : |(841 / 5841 : ℝ)| = 841 / 5841 := abs_of_pos (by norm_num)
  have z := Real.abs_log_sub_add_sum_range_le
    (show |(841 / 5841 : ℝ)| < 1 by rw [habs]; norm_num) 8
  rw [habs] at z
  simp only [Finset.sum_range_succ, Finset.sum_range_zero] at z
  have z2 := abs_le.mp z
  have l1 := Real.log_two_gt_d9
  have l2 := Real.log_two_lt_d9
  rw [hlog]
  norm_num at z2 l1 l2 ⊢
  constructor <;> linarith [z2.1, z2.2]

/-- On the scenario page the arrangement is `3P_SYMM`, both GMDs are `4`, the
radius is `1.5` and the length `100`. -/
theorem scenarioPage_geometry :
    (scenarioPage : Dom ℝ).sel "phaseArrangement" = "3P_SYMM" ∧
      calculateGMDs realMath scenarioPage "3P_SYMM" = { GMD_L := 4, GMD_C := 4 } ∧
      getNum (scenarioPage : Dom ℝ) "conductorRadius" = 1.5 ∧
      getNum (scenarioPage : Dom ℝ) "lineLength" = 100 := by
  refine ⟨rfl, ?_, ?_, ?_⟩
  · unfold calculateGMDs
    simp [getNum, scenarioPage, pageOf]
  · simp [getNum, scenarioPage, pageOf]
  · simp [getNum, scenarioPage, pageOf]

/-- The per-km inductance of the scenario is `2e-7 * ln(4 / 1.1682) * 1000`. -/
theorem scenario_L_per_km :
    (calculateL realMath 1.5 100 4).L_per_km = 2e-7 * Real.log (4 / 1.1682) * 1000 := by
  have hg : (GMR_FACTOR : ℝ) * 1.5 < 4 := by unfold GMR_FACTOR; norm_num
  have hgmr : (GMR_FACTOR : ℝ) * 1.5 = 1.1682 := by unfold GMR_FACTOR; norm_num
  rw [calculateL_of_gmr_lt realMath 1.5 100 4 (by norm_num) hg, hgmr]
  rfl

/-- C6, refutation: in the end-to-end scenario the milli-scaled per-km inductance
is not within `0.000005` of `0.24585`. -/
theorem scenario_inductance_counterexample :
    ¬(|(calculateL realMath (getNum scenarioPage "conductorRadius")
          (getNum scenarioPage "lineLength")
          (calculateGMDs realMath scenarioPage
            ((scenarioPage : Dom ℝ).sel "phaseArrangement")).GMD_L).L_per_km * 1e3
        - 0.24585| < 0.000005) := by
  obtain ⟨hsel, hG, hr, hlen⟩ := scenarioPage_geometry
  obtain ⟨hlo, _⟩ := log_scenario_quotient_bounds
  rw [hsel, hG, hr, hlen, scenario_L_per_km]
  intro h
  have h2 := (abs_lt.mp h).2
  norm_num at h2 hlo
  linarith

/-- C6, amended: in the end-to-end scenario `calculateGMDs` returns
`GMD_L = GMD_C = 4`, the GMR is `0.7788 * 1.5 = 1.1682`, and the milli-scaled
per-km inductance `2e-7 * ln(4/1.1682) * 1000 * 1e3` is within `0.000005` of
`0.24617`. -/
theorem scenario_inductance :
    calculateGMDs realMath scenarioPage ((scenarioPage : Dom ℝ).sel "phaseArrangement") =
        { GMD_L := 4, GMD_C := 4 } ∧
      (GMR_FACTOR : ℝ) * getNum scenarioPage "conductorRadius" = 1.1682 ∧
      (calculateL realMath (getNum scenarioPage "conductorRadius")
          (getNum scenarioPage "lineLength")
          (calculateGMDs realMath scenarioPage
            ((scenarioPage : Dom ℝ).sel "phaseArrangement")).GMD_L).L_per_km * 1e3 =
        2e-7 * Real.log (4 / 1.1682) * 1000 * 1e3 ∧
      |(calculateL realMath (getNum scenarioPage "conductorRadius")
          (getNum scenarioPage "lineLength")
          (calculateGMDs realMath scenarioPage
            ((scenarioPage : Dom ℝ).sel "phaseArrangement")).GMD_L).L_per_km * 1e3
        - 0.24617| < 0.000005 := by
  obtain ⟨hsel, hG, hr, hlen⟩ := scenarioPage_geometry
  obtain ⟨hlo, hhi⟩ := log_scenario_quotient_bounds
  rw [hsel, hG, hr, hlen, scenario_L_per_km]
  refine ⟨rfl, by unfold GMR_FACTOR; norm_num, rfl, ?_⟩
  rw [abs_lt]
  norm_num at hlo hhi ⊢
  constructor <;> linarith

end TransmissionLine
